import Mathlib

/-!
Verification of the `elrincondelola` Home Assistant custom integration
(`custom_components/elrincondelola/sensor.py` and `binary_sensor.py`).

The development shallowly embeds the two interesting pieces of the code:

* the SSE line-frame parser and reconnecting stream client implemented in
  `ApiPingSensor._listen_sse` (sensor.py lines 56-118), and
* the snapshot-fetcher refresh logic of `ReservaHoySensor._refresh_from_api`,
  `_ReservaBase._refresh_from_api` (shared by the `/api/prev` and `/api/next`
  sensors) and `OcupadoBinarySensor._refresh_from_api`.

Python strings handled by the parser are modelled as `List Char`; JSON values
that flow through `dict.get` are modelled by `PyVal` (the payloads only carry
null, booleans and strings).  Fields of the JSON object are `Option PyVal`
with `Option.none` meaning "key absent" and `some PyVal.none` meaning "key
present with value null" — `dict.get` collapses the two exactly as Python
does.  Network interactions are modelled by explicit outcome values fed to
the (otherwise pure) step functions.
-/

namespace ElRinconDeLola

/-! ### Python string helpers -/

/-- Whitespace characters stripped by Python's `str.lstrip()` (the ASCII
subset, which covers every character the SSE wire format can carry in a
`data:` payload position). -/
def isPySpace (c : Char) : Bool :=
  c = ' ' || c = '\t' || c = '\n' || c = '\r' || c = '\x0b' || c = '\x0c'

/-- Python `s.lstrip()`: remove every leading whitespace character. -/
def pyLstrip (s : List Char) : List Char :=
  s.dropWhile isPySpace

/-- Python `s.rstrip("\n")`: remove every trailing newline character.
`_listen_sse` applies this to each raw line before classifying it. -/
def rstripNl (s : List Char) : List Char :=
  (s.reverse.dropWhile (· = '\n')).reverse

/-! ### SSE frame parser (sensor.py lines 86-110)

The body of the `async for raw in resp.content:` loop, translated line by
line.  `sseStep` consumes one raw line and returns the new accumulation
buffer together with the event emitted on that line, if any.  In the code an
emitted event is written to `_attr_native_value` and broadcast through
`async_dispatcher_send`; here it is returned. -/

/-- One iteration of the line loop: classify `raw` (after `rstrip("\n")`)
and update the buffer.  Mirrors sensor.py lines 91-110. -/
def sseStep (buffer : List Char) (raw : List Char) : List Char × Option (List Char) :=
  if rstripNl raw = [] then
    if buffer ≠ [] then ([], some buffer) else (buffer, none)
  else if List.isPrefixOf [':'] (rstripNl raw) then
    (buffer, none)
  else if List.isPrefixOf ("data:".toList) (rstripNl raw) then
    (buffer ++ pyLstrip ((rstripNl raw).drop 5), none)
  else
    (buffer, none)

/-- Run the parser over a list of raw lines from a given buffer, returning
the final buffer and the list of emitted events in order. -/
def sseRun (buffer : List Char) (lines : List (List Char)) :
    List Char × List (List Char) :=
  match lines with
  | [] => (buffer, [])
  | l :: rest =>
    let s := sseStep buffer l
    let r := sseRun s.1 rest
    (r.1, s.2.toList ++ r.2)

/-- A raw line the code treats as blank: `not line` after `rstrip("\n")`. -/
def isBlankL (raw : List Char) : Bool :=
  rstripNl raw = []

/-- A raw line the code treats as a `data:` field line.  Such a line is
automatically non-blank and does not start with `:`, so this single test
determines the branch taken in `sseStep`. -/
def isDataL (raw : List Char) : Bool :=
  List.isPrefixOf ("data:".toList) (rstripNl raw)

/-- The text a `data:` line contributes to the buffer:
`line[5:].lstrip()` (sensor.py line 108). -/
def ssePayload (raw : List Char) : List Char :=
  pyLstrip ((rstripNl raw).drop 5)

/-- Concatenation, with no separator, of the stripped payloads of the
`data:` lines of a block, in order. -/
def dataConcat (lines : List (List Char)) : List Char :=
  ((lines.filter isDataL).map ssePayload).flatten

/-! ### Basic parser lemmas -/

theorem isData_ne_nil {raw : List Char} (hd : isDataL raw = true) :
    rstripNl raw ≠ [] := by
  intro hE
  rw [isDataL, hE] at hd
  exact absurd hd (by decide)

theorem isData_not_colon {raw : List Char} (hd : isDataL raw = true) :
    ¬ (List.isPrefixOf [':'] (rstripNl raw) = true) := by
  unfold isDataL at hd
  rw [List.isPrefixOf_iff_prefix] at hd
  obtain ⟨t, ht⟩ := hd
  intro hpre
  rw [List.isPrefixOf_iff_prefix] at hpre
  obtain ⟨u, hu⟩ := hpre
  have h2 : (':' :: u) = 'd' :: ('a' :: 't' :: 'a' :: ':' :: t) := by
    rw [show (':' :: u) = [':'] ++ u from rfl, hu, ← ht]
    rfl
  have h3 : ':' = 'd' := by
    injection h2
  exact absurd h3 (by decide)

theorem sseStep_blank_empty (raw : List Char) (h : isBlankL raw = true) :
    sseStep [] raw = ([], none) := by
  simp only [isBlankL, decide_eq_true_eq] at h
  unfold sseStep
  rw [if_pos h]
  simp

theorem sseStep_blank_nonempty (buffer raw : List Char)
    (hb : buffer ≠ []) (h : isBlankL raw = true) :
    sseStep buffer raw = ([], some buffer) := by
  simp only [isBlankL, decide_eq_true_eq] at h
  unfold sseStep
  rw [if_pos h, if_pos hb]

theorem sseStep_nondata_nonblank (buffer raw : List Char)
    (hb : isBlankL raw = false) (hd : isDataL raw = false) :
    sseStep buffer raw = (buffer, none) := by
  have hb' : ¬ (rstripNl raw = []) := by
    intro h2
    unfold isBlankL at hb
    rw [h2] at hb
    simp at hb
  have hd' : ¬ (List.isPrefixOf ("data:".toList) (rstripNl raw) = true) := by
    intro h2
    unfold isDataL at hd
    rw [h2] at hd
    exact absurd hd (by decide)
  unfold sseStep
  rw [if_neg hb']
  by_cases hc : List.isPrefixOf [':'] (rstripNl raw) = true
  · rw [if_pos hc]
  · rw [if_neg hc, if_neg hd']

theorem sseStep_data (buffer raw : List Char) (hd : isDataL raw = true) :
    sseStep buffer raw = (buffer ++ ssePayload raw, none) := by
  have hb' := isData_ne_nil hd
  have hc' := isData_not_colon hd
  have hd' : List.isPrefixOf ("data:".toList) (rstripNl raw) = true := hd
  unfold sseStep
  rw [if_neg hb', if_neg hc', if_pos hd']
  rfl

/-- Splitting a parser run over an append of line lists. -/
theorem sseRun_append (buffer : List Char) (xs ys : List (List Char)) :
    sseRun buffer (xs ++ ys) =
      ((sseRun (sseRun buffer xs).1 ys).1,
        (sseRun buffer xs).2 ++ (sseRun (sseRun buffer xs).1 ys).2) := by
  induction xs generalizing buffer with
  | nil => simp [sseRun]
  | cons l rest ih =>
    simp only [List.cons_append, sseRun, List.append_eq]
    rw [ih]
    simp [List.append_assoc]

/-- Lines containing no `data:` line, starting from an empty buffer, leave
the buffer empty and emit nothing. -/
theorem sseRun_no_data (lines : List (List Char))
    (h : ∀ l ∈ lines, isDataL l = false) :
    sseRun [] lines = ([], []) := by
  induction lines with
  | nil => rfl
  | cons l rest ih =>
    have hl := h l (List.mem_cons_self l rest)
    have hstep : sseStep [] l = ([], none) := by
      by_cases hb : isBlankL l = true
      · exact sseStep_blank_empty l hb
      · exact sseStep_nondata_nonblank [] l (by simpa using hb) hl
    simp only [sseRun, hstep]
    simpa using ih (fun x hx => h x (List.mem_cons_of_mem l hx))

/-- Lines containing no blank line append exactly the concatenated `data:`
payloads to the buffer and emit nothing. -/
theorem sseRun_no_blank (buffer : List Char) (lines : List (List Char))
    (h : ∀ l ∈ lines, isBlankL l = false) :
    sseRun buffer lines = (buffer ++ dataConcat lines, []) := by
  induction lines generalizing buffer with
  | nil => simp [sseRun, dataConcat]
  | cons l rest ih =>
    have hl := h l (List.mem_cons_self l rest)
    have hrest := fun x hx => h x (List.mem_cons_of_mem l hx)
    by_cases hd : isDataL l = true
    · simp only [sseRun, sseStep_data buffer l hd]
      simp only [ih (buffer ++ ssePayload l) hrest]
      simp [dataConcat, hd, List.filter_cons, List.append_assoc]
    · have hd' : isDataL l = false := by
        cases h2 : isDataL l with
        | true => exact absurd h2 hd
        | false => rfl
      simp only [sseRun, sseStep_nondata_nonblank buffer l hl hd']
      simp only [ih buffer hrest]
      simp [dataConcat, List.filter_cons, hd']

/-- Every event the parser emits is the (necessarily non-empty) buffer. -/
theorem sseStep_event_nonempty (buffer raw e : List Char)
    (h : (sseStep buffer raw).2 = some e) : e ≠ [] := by
  unfold sseStep at h
  by_cases hb : rstripNl raw = []
  · rw [if_pos hb] at h
    by_cases hne : buffer ≠ []
    · rw [if_pos hne] at h
      simp only [Option.some.injEq] at h
      exact h ▸ hne
    · rw [if_neg hne] at h
      simp at h
  · rw [if_neg hb] at h
    by_cases hc : List.isPrefixOf [':'] (rstripNl raw) = true
    · rw [if_pos hc] at h; simp at h
    · rw [if_neg hc] at h
      by_cases hd : List.isPrefixOf ("data:".toList) (rstripNl raw) = true
      · rw [if_pos hd] at h; simp at h
      · rw [if_neg hd] at h; simp at h

/-! ### JSON / Python values for the snapshot fetchers

The snapshot payloads carry null, booleans and strings; `PyVal` models the
values returned by `dict.get`.  A JSON object field is an `Option PyVal`:
`Option.none` means the key is absent, `some PyVal.null` means the key is
present with value null.  `dget` is `data.get(k)` (absent ↦ `None`), `dgetD`
is `data.get(k, default)`. -/

inductive PyVal
  | null
  | bool (b : Bool)
  | str (s : String)
deriving DecidableEq

/-- `data.get(k)`: returns `None` when the key is absent. -/
def dget (f : Option PyVal) : PyVal :=
  f.getD .null

/-- `data.get(k, default)`. -/
def dgetD (f : Option PyVal) (d : PyVal) : PyVal :=
  f.getD d

/-- Python truthiness (`bool(x)` / `if x:`) on the values that occur here:
`None` and `False` are falsy, the empty string is falsy, everything else is
truthy. -/
def truthy : PyVal → Bool
  | .null => false
  | .bool b => b
  | .str s => s ≠ ""

/-- Python's short-circuiting `x or y`: `x` if truthy, else `y`. -/
def pyOr (a b : PyVal) : PyVal :=
  if truthy a then a else b

/-- The JSON object returned by `/api/today`, `/api/prev` and `/api/next`.
Only the keys the code reads are modelled; each is `Option.none` when the
key is absent from the object. -/
structure Payload where
  has_reservation : Option PyVal
  user_name : Option PyVal
  date : Option PyVal
  is_birthday : Option PyVal
  is_holiday : Option PyVal
  profile_pic_url : Option PyVal
deriving DecidableEq

/-- Outcome of one `session.get` in a fetcher's `_refresh_from_api`:
either the request raised, or it returned `status` with a body whose JSON
parse yielded `some` payload (`none` models `resp.json()` raising, which
the code only ever attempts after seeing status 200). -/
inductive FetchOutcome
  | exn
  | resp (status : Nat) (body : Option Payload)
deriving DecidableEq

/-- `true` exactly when the claim-relevant failure happened: the request or
JSON parse raised, or the status was not 200. -/
def fetchFails : FetchOutcome → Bool
  | .exn => true
  | .resp status body => decide (status ≠ 200) || body.isNone

/-- Observable state of one text sensor: `_attr_native_value` plus the
`_attrs` dict (modelled as an association list in insertion order). -/
structure SensorState where
  native : PyVal
  attrs : List (String × PyVal)
deriving DecidableEq

/-- Observable state of the `Ocupado` binary sensor: `_is_on` plus `_attrs`. -/
structure OcupadoState where
  isOn : Bool
  attrs : List (String × PyVal)
deriving DecidableEq

/-- Constructor state of `ReservaHoySensor` / `_ReservaBase`:
`_attr_native_value = None`, `_attrs = {}`. -/
def sensorStart : SensorState :=
  { native := .null, attrs := [] }

/-- Constructor state of `OcupadoBinarySensor`: `_is_on = False`, `_attrs = {}`. -/
def ocupadoStart : OcupadoState :=
  { isOn := false, attrs := [] }

/-- `ReservaHoySensor._refresh_from_api` (sensor.py lines 168-193). -/
def hoyRefresh (st : SensorState) (o : FetchOutcome) : SensorState :=
  match o with
  | .exn => st
  | .resp status body =>
    if status ≠ 200 then st
    else
      match body with
      | none => st
      | some data =>
        { native :=
            if truthy (dget data.has_reservation) then
              pyOr (dget data.user_name) (.str "Desconocido")
            else
              .str "Libre",
          attrs :=
            [("cumpleanos", .bool (truthy (dgetD data.is_birthday (.bool false)))),
             ("festivo", .bool (truthy (dgetD data.is_holiday (.bool false)))),
             ("foto_perfil_url", dget data.profile_pic_url)] }

/-- `_ReservaBase._refresh_from_api` (sensor.py lines 238-264), shared by
`ReservaAnteriorSensor` (`/api/prev`) and `ReservaProximaSensor`
(`/api/next`); the endpoint does not influence the state transition. -/
def reservaBaseRefresh (st : SensorState) (o : FetchOutcome) : SensorState :=
  match o with
  | .exn => st
  | .resp status body =>
    if status ≠ 200 then st
    else
      match body with
      | none => st
      | some data =>
        { native :=
            if truthy (dget data.has_reservation) then
              pyOr (pyOr (dget data.user_name) (dget data.date)) (.str "Desconocido")
            else
              .str "Ninguna",
          attrs :=
            [("nombre", dget data.user_name),
             ("cumpleanos", .bool (truthy (dgetD data.is_birthday (.bool false)))),
             ("festivo", .bool (truthy (dgetD data.is_holiday (.bool false)))),
             ("foto_perfil_url", dget data.profile_pic_url),
             ("fecha", dget data.date)] }

/-- `OcupadoBinarySensor._refresh_from_api` (binary_sensor.py lines 54-77). -/
def ocupadoRefresh (st : OcupadoState) (o : FetchOutcome) : OcupadoState :=
  match o with
  | .exn => st
  | .resp status body =>
    if status ≠ 200 then st
    else
      match body with
      | none => st
      | some data =>
        { isOn := truthy (dgetD data.has_reservation (.bool false)),
          attrs :=
            [("reserva_hoy", .bool (truthy (dgetD data.has_reservation (.bool false)))),
             ("nombre", dget data.user_name),
             ("cumpleanos", .bool (truthy (dgetD data.is_birthday (.bool false)))),
             ("festivo", .bool (truthy (dgetD data.is_holiday (.bool false)))),
             ("foto_perfil_url", dget data.profile_pic_url)] }

/-! ### Reconnecting stream client (sensor.py lines 56-118)

One iteration of the `while self._running:` loop is modelled by
`listenIter`.  Its inputs are the current `backoff` value, the fractional
part `j ∈ [0,1)` of `asyncio.get_running_loop().time()` used for jitter, and
the outcome the transport delivers for this connection attempt. -/

/-- How a successfully opened (HTTP 200) stream ended: the body iterator
was exhausted (`clean`) or a read raised (`exn`). -/
inductive StreamEnd
  | clean
  | exn
deriving DecidableEq

/-- Outcome of one connection attempt: `session.get` raised (`reqExn`),
the task was cancelled (`cancelled`), or a response arrived with `status`;
for a 200 response `lines` are the raw lines read before `ending`. -/
inductive ConnOutcome
  | reqExn
  | cancelled
  | conn (status : Nat) (lines : List (List Char)) (ending : StreamEnd)
deriving DecidableEq

/-- Observable effects of one loop iteration: the stored backoff after the
iteration, the events published (state writes plus dispatcher sends), the
sleep performed (if any), whether the auth-invalid warning was logged, and
whether the loop terminated. -/
structure IterResult where
  backoff : Nat
  events : List (List Char)
  slept : Option ℚ
  loggedAuth : Bool
  terminated : Bool
deriving DecidableEq

/-- `backoff * (0.8 + 0.4 * (loop.time() % 1))` (sensor.py lines 79, 116). -/
def jitterDelay (b : Nat) (j : ℚ) : ℚ :=
  (b : ℚ) * (4 / 5 + 2 / 5 * j)

/-- One iteration of `_listen_sse`'s `while` loop.  A non-200 response logs
(warning only for 401), sleeps the jittered delay and doubles backoff capped
at 300; a 200 response resets backoff to 5 and runs the line loop from an
empty buffer; if the read then raises, the handler sleeps (with the already
reset backoff of 5) and doubles it; cancellation re-raises and ends the
loop. -/
def listenIter (b : Nat) (j : ℚ) (o : ConnOutcome) : IterResult :=
  match o with
  | .cancelled =>
    { backoff := b, events := [], slept := none, loggedAuth := false,
      terminated := true }
  | .reqExn =>
    { backoff := min (b * 2) 300, events := [], slept := some (jitterDelay b j),
      loggedAuth := false, terminated := false }
  | .conn status lines ending =>
    if status ≠ 200 then
      { backoff := min (b * 2) 300, events := [], slept := some (jitterDelay b j),
        loggedAuth := status == 401, terminated := false }
    else
      match ending with
      | .clean =>
        { backoff := 5, events := (sseRun [] lines).2, slept := none,
          loggedAuth := false, terminated := false }
      | .exn =>
        { backoff := min (5 * 2) 300, events := (sseRun [] lines).2,
          slept := some (jitterDelay 5 j), loggedAuth := false,
          terminated := false }

/-! ### Backoff evolution

The stored `backoff` variable is touched in exactly three places:
`backoff = 10` before the loop (line 67), `backoff = 5` on an HTTP 200
(line 84), and `backoff = min(backoff * 2, 300)` after each failure
(lines 81 and 118).  `BEvent` is the trace alphabet of these transitions:
one `success` per HTTP 200 connect, one `failure` per non-200 response or
raised request/read. -/

inductive BEvent
  | success
  | failure
deriving DecidableEq

/-- Effect of one success/failure on the stored backoff. -/
def backoffStep (b : Nat) : BEvent → Nat
  | .success => 5
  | .failure => min (b * 2) 300

/-- Backoff after a trace of successes and failures starting from `b`. -/
def backoffRun (b : Nat) (es : List BEvent) : Nat :=
  es.foldl backoffStep b

/-- The value `backoff` is initialised to before the loop (line 67). -/
def backoffStart : Nat := 10

/-- The success/failure events of one connection attempt, in order. -/
def beventsOf : ConnOutcome → List BEvent
  | .reqExn => [.failure]
  | .cancelled => []
  | .conn status _ ending =>
    if status ≠ 200 then [.failure]
    else
      match ending with
      | .clean => [.success]
      | .exn => [.success, .failure]

/-- The iteration model and the event-trace model agree on the stored
backoff. -/
theorem listenIter_backoff_eq (b : Nat) (j : ℚ) (o : ConnOutcome) :
    (listenIter b j o).backoff = backoffRun b (beventsOf o) := by
  cases o with
  | reqExn => rfl
  | cancelled => rfl
  | conn status lines ending =>
    simp only [listenIter, beventsOf]
    by_cases hs : status ≠ 200
    · rw [if_pos hs, if_pos hs]
      cases ending <;> rfl
    · rw [if_neg hs, if_neg hs]
      cases ending <;> rfl

theorem backoffRun_append (b : Nat) (xs ys : List BEvent) :
    backoffRun b (xs ++ ys) = backoffRun (backoffRun b xs) ys := by
  simp [backoffRun, List.foldl_append]

/-- Starting at or below the ceiling, `N` consecutive failures leave the
backoff at `min (b * 2 ^ N) 300`. -/
theorem backoffRun_failures (N : Nat) : ∀ b : Nat, b ≤ 300 →
    backoffRun b (List.replicate N .failure) = min (b * 2 ^ N) 300 := by
  induction N with
  | zero =>
    intro b hb
    simp [backoffRun, Nat.min_eq_left hb]
  | succ N ih =>
    intro b hb
    rw [List.replicate_succ]
    have h1 : backoffRun b (BEvent.failure :: List.replicate N BEvent.failure) =
        backoffRun (min (b * 2) 300) (List.replicate N BEvent.failure) := rfl
    rw [h1, ih (min (b * 2) 300) (Nat.min_le_right _ _)]
    have hpow : 0 < 2 ^ N := Nat.pos_pow_of_pos N (by norm_num)
    rcases le_or_lt (b * 2) 300 with h | h
    · rw [Nat.min_eq_left h, pow_succ]
      congr 1
      ring
    · rw [Nat.min_eq_right (le_of_lt h)]
      have h2 : 300 ≤ 300 * 2 ^ N := by nlinarith
      have h3 : 300 ≤ b * 2 ^ (N + 1) := by
        rw [pow_succ]
        nlinarith
      rw [Nat.min_eq_right h2, Nat.min_eq_right h3]

theorem backoffRun_le_ceiling (es : List BEvent) : ∀ b : Nat, b ≤ 300 →
    backoffRun b es ≤ 300 := by
  induction es with
  | nil => intro b hb; exact hb
  | cons e rest ih =>
    intro b hb
    cases e with
    | success => exact ih 5 (by norm_num)
    | failure => exact ih (min (b * 2) 300) (Nat.min_le_right _ _)

/-- C1, as the claim literally states it, fails on the code: the loop
initialises `backoff` to 10 (sensor.py line 67), not to the floor 5, so
one failure before any successful connect leaves the backoff at 20, while
`min(5 * 2^1, 300) = 10`. -/
theorem backoff_formula_cex :
    backoffRun backoffStart (List.replicate 1 BEvent.failure) ≠ min (5 * 2 ^ 1) 300 := by
  decide

/-- C1 (amended): after a successful connect (which resets the backoff to
the floor 5) followed by `N` consecutive failures, the stored backoff is
`min(5 * 2^N, 300)`, whatever happened before the success; a success alone
resets it to 5.  Before the first success the backoff starts at 10, so `N`
consecutive failures from startup leave it at `min(10 * 2^N, 300)`. -/
theorem backoff_formula (pre : List BEvent) (N : Nat) :
    backoffRun backoffStart (pre ++ BEvent.success :: List.replicate N BEvent.failure) =
      min (5 * 2 ^ N) 300 ∧
    backoffRun backoffStart (pre ++ [BEvent.success]) = 5 ∧
    backoffRun backoffStart (List.replicate N BEvent.failure) = min (10 * 2 ^ N) 300 := by
  refine ⟨?_, ?_, ?_⟩
  · rw [backoffRun_append]
    have h1 : backoffRun (backoffRun backoffStart pre)
        (BEvent.success :: List.replicate N BEvent.failure) =
        backoffRun 5 (List.replicate N BEvent.failure) := rfl
    rw [h1, backoffRun_failures N 5 (by norm_num)]
  · rw [backoffRun_append]
    rfl
  · exact backoffRun_failures N 10 (by norm_num)

/-- C8: across any sequence of successes and failures the stored
`backoff` value never exceeds the ceiling of 300 seconds. -/
theorem backoff_never_exceeds_ceiling (es : List BEvent) :
    backoffRun backoffStart es ≤ 300 :=
  backoffRun_le_ceiling es backoffStart (by decide)

/-- C6: a 401 response from the events endpoint does not terminate the
loop and does not go unlogged: the iteration logs the auth-invalid
warning, sleeps the jittered backoff delay, doubles the backoff capped at
300, and otherwise behaves exactly (same new backoff, same sleep, same
termination, same events) like any other non-200 status. -/
theorem auth_failure_retries (b : Nat) (j : ℚ) (s : Nat)
    (lines : List (List Char)) (ending : StreamEnd) (hs : s ≠ 200) :
    (listenIter b j (.conn 401 lines ending)).terminated = false ∧
    (listenIter b j (.conn 401 lines ending)).loggedAuth = true ∧
    (listenIter b j (.conn 401 lines ending)).slept = some (jitterDelay b j) ∧
    (listenIter b j (.conn 401 lines ending)).backoff = min (b * 2) 300 ∧
    (listenIter b j (.conn 401 lines ending)).backoff =
      (listenIter b j (.conn s lines ending)).backoff ∧
    (listenIter b j (.conn 401 lines ending)).slept =
      (listenIter b j (.conn s lines ending)).slept ∧
    (listenIter b j (.conn 401 lines ending)).terminated =
      (listenIter b j (.conn s lines ending)).terminated ∧
    (listenIter b j (.conn 401 lines ending)).events =
      (listenIter b j (.conn s lines ending)).events := by
  simp only [listenIter]
  rw [if_pos (show (401 : Nat) ≠ 200 by decide), if_pos hs]
  exact ⟨rfl, rfl, rfl, rfl, rfl, rfl, rfl, rfl⟩

theorem auth_failure_retries_witness :
    (listenIter 10 0 (.conn 401 [] .clean)).terminated = false ∧
    (listenIter 10 0 (.conn 401 [] .clean)).loggedAuth = true ∧
    (listenIter 10 0 (.conn 401 [] .clean)).slept = some (jitterDelay 10 0) ∧
    (listenIter 10 0 (.conn 401 [] .clean)).backoff = min (10 * 2) 300 ∧
    (listenIter 10 0 (.conn 401 [] .clean)).backoff =
      (listenIter 10 0 (.conn 503 [] .clean)).backoff ∧
    (listenIter 10 0 (.conn 401 [] .clean)).slept =
      (listenIter 10 0 (.conn 503 [] .clean)).slept ∧
    (listenIter 10 0 (.conn 401 [] .clean)).terminated =
      (listenIter 10 0 (.conn 503 [] .clean)).terminated ∧
    (listenIter 10 0 (.conn 401 [] .clean)).events =
      (listenIter 10 0 (.conn 503 [] .clean)).events :=
  auth_failure_retries 10 0 503 [] StreamEnd.clean (by decide)

/-! ### Parser claims -/

/-- Characterisation of `List.dropWhile`: it removes an all-`p` prefix and
what remains does not start with a `p`-element. -/
theorem dropWhile_exists_drop {α : Type} (p : α → Bool) (l : List α) :
    ∃ k, l.dropWhile p = l.drop k ∧ (∀ c ∈ l.take k, p c = true) ∧
      (∀ c, (l.dropWhile p).head? = some c → p c = false) := by
  induction l with
  | nil => exact ⟨0, rfl, by simp, by simp⟩
  | cons a as ih =>
    by_cases hp : p a = true
    · obtain ⟨k, h1, h2, h3⟩ := ih
      refine ⟨k + 1, ?_, ?_, ?_⟩
      · rw [List.dropWhile_cons, if_pos hp, List.drop_succ_cons]
        exact h1
      · intro c hc
        rw [List.take_succ_cons] at hc
        rcases List.mem_cons.mp hc with rfl | hc2
        · exact hp
        · exact h2 c hc2
      · intro c hc
        rw [List.dropWhile_cons, if_pos hp] at hc
        exact h3 c hc
    · refine ⟨0, ?_, by simp, ?_⟩
      · rw [List.dropWhile_cons, if_neg hp, List.drop_zero]
      · intro c hc
        rw [List.dropWhile_cons, if_neg hp] at hc
        simp only [List.head?_cons, Option.some.injEq] at hc
        cases h2 : p a with
        | true => exact absurd h2 hp
        | false => exact hc ▸ h2

/-- Claim-side companion for C3, following the spec's words ("strip the
prefix and any single leading space"): remove exactly one leading space if
one is present, nothing otherwise. -/
def specStripOneSpace (s : List Char) : List Char :=
  match s with
  | ' ' :: rest => rest
  | s => s

/-- C3, as literally stated, fails on the code: `line[5:].lstrip()` strips
every leading whitespace character, not at most one single space.  On the
raw line `data:  x` (two spaces) the code appends `x`, while the claim
requires ` x` (one space preserved). -/
theorem data_line_single_space_cex :
    isDataL ("data:  x".toList) = true ∧
    (sseStep [] ("data:  x".toList)).1 ≠
      specStripOneSpace (("data:  x".toList).drop 5) := by
  decide

/-- C3 (amended): for every raw `data:` line, the text appended to the
buffer is the line after removal of the `data:` prefix and of its entire
leading-whitespace run (spaces, tabs, etc.): the removed characters are all
whitespace and the appended text never starts with whitespace.  No event is
emitted on such a line. -/
theorem data_line_appends_all_stripped (buffer raw : List Char)
    (hd : isDataL raw = true) :
    ∃ k, (sseStep buffer raw).1 = buffer ++ ((rstripNl raw).drop 5).drop k ∧
      (sseStep buffer raw).2 = none ∧
      (∀ c ∈ ((rstripNl raw).drop 5).take k, isPySpace c = true) ∧
      (∀ c, (((rstripNl raw).drop 5).drop k).head? = some c →
        isPySpace c = false) := by
  obtain ⟨k, h1, h2, h3⟩ := dropWhile_exists_drop isPySpace ((rstripNl raw).drop 5)
  refine ⟨k, ?_, ?_, h2, ?_⟩
  · rw [sseStep_data buffer raw hd]
    show buffer ++ pyLstrip ((rstripNl raw).drop 5) = _
    rw [pyLstrip, h1]
  · rw [sseStep_data buffer raw hd]
  · intro c hc
    rw [← h1] at hc
    exact h3 c hc

theorem data_line_appends_all_stripped_witness :
    ∃ k, (sseStep [] ("data:  x".toList)).1 =
        [] ++ (("data:  x".toList.drop 5)).drop k ∧
      (sseStep [] ("data:  x".toList)).2 = none ∧
      (∀ c ∈ (("data:  x".toList.drop 5)).take k, isPySpace c = true) ∧
      (∀ c, ((("data:  x".toList.drop 5)).drop k).head? = some c →
        isPySpace c = false) :=
  data_line_appends_all_stripped [] ("data:  x".toList) (by decide)

/-- C2, as literally stated, fails on the code: a `data:` block whose
stripped payloads are all empty leaves the buffer empty, so the terminating
blank line emits nothing instead of exactly one (empty) event.  The two
raw lines `data:` and `` form such a block and emit zero events. -/
theorem single_data_block_cex :
    isDataL ("data:".toList) = true ∧
    isBlankL ([] : List Char) = true ∧
    (sseRun [] [("data:".toList), []]).2 = [] := by
  decide

/-- C2 (amended): for a sequence of raw lines consisting of a single
`data:` block terminated by a blank line, surrounded by lines that are not
`data:` lines (comments, other fields, blanks), the parser emits exactly
one event, equal to the separator-free concatenation of the stripped
`data:` payloads — provided that concatenation is non-empty (an all-empty
block emits nothing, since the code never emits an empty buffer). -/
theorem single_data_block_emits_once (pre mid post : List (List Char))
    (bl : List Char)
    (hpre : ∀ l ∈ pre, isDataL l = false)
    (hmid : ∀ l ∈ mid, isBlankL l = false)
    (hbl : isBlankL bl = true)
    (hpost : ∀ l ∈ post, isDataL l = false)
    (hne : dataConcat mid ≠ []) :
    (sseRun [] (pre ++ mid ++ bl :: post)).2 = [dataConcat mid] := by
  have h1 := sseRun_no_data pre hpre
  have h2 : sseRun [] mid = (dataConcat mid, []) := by
    simpa using sseRun_no_blank [] mid hmid
  have h3 : sseStep (dataConcat mid) bl = ([], some (dataConcat mid)) :=
    sseStep_blank_nonempty _ bl hne hbl
  have h4 := sseRun_no_data post hpost
  rw [List.append_assoc, sseRun_append [] pre (mid ++ bl :: post), h1]
  show ([] : List (List Char)) ++ (sseRun [] (mid ++ bl :: post)).2 = _
  rw [List.nil_append, sseRun_append [] mid (bl :: post), h2]
  show ([] : List (List Char)) ++ (sseRun (dataConcat mid) (bl :: post)).2 = _
  rw [List.nil_append]
  simp only [sseRun, h3]
  rw [h4]
  simp

theorem single_data_block_emits_once_witness :
    (sseRun [] ([(": ping".toList)] ++
      [("data: he".toList), ("data:llo".toList)] ++
      ([] : List Char) :: [("event: x".toList)])).2 =
      [dataConcat [("data: he".toList), ("data:llo".toList)]] :=
  single_data_block_emits_once [(": ping".toList)]
    [("data: he".toList), ("data:llo".toList)] [("event: x".toList)] []
    (by decide) (by decide) (by decide) (by decide) (by decide)

/-- C7: a blank line arriving while the buffer is empty emits nothing;
every emitted event is a non-empty string (so an empty-string event never
occurs); and two consecutive blank lines emit at most one event. -/
theorem blank_lines_collapse :
    (∀ raw, isBlankL raw = true → sseStep [] raw = ([], none)) ∧
    (∀ buffer raw e, (sseStep buffer raw).2 = some e → e ≠ []) ∧
    (∀ buffer raw1 raw2, isBlankL raw1 = true → isBlankL raw2 = true →
      (sseRun buffer [raw1, raw2]).2.length ≤ 1) := by
  refine ⟨sseStep_blank_empty, sseStep_event_nonempty, ?_⟩
  intro buffer raw1 raw2 h1 h2
  by_cases hb : buffer = []
  · subst hb
    simp [sseRun, sseStep_blank_empty raw1 h1, sseStep_blank_empty raw2 h2]
  · simp [sseRun, sseStep_blank_nonempty buffer raw1 hb h1,
      sseStep_blank_empty raw2 h2]

theorem blank_lines_collapse_witness :
    sseStep [] ("\n".toList) = ([], none) ∧
    ("x".toList ≠ []) ∧
    (sseRun ("x".toList) [[], []]).2.length ≤ 1 :=
  ⟨blank_lines_collapse.1 ("\n".toList) (by decide),
   blank_lines_collapse.2.1 ("x".toList) [] ("x".toList) (by decide),
   blank_lines_collapse.2.2 ("x".toList) [] [] (by decide) (by decide)⟩

/-- C9: if the stream of a 200 connection ends in a read error while a
`data:` block is still unterminated (no blank line in the trailing lines),
the events published by that connection attempt are exactly those of the
blank-terminated prefix — the partial buffer is never emitted or
dispatched; and any (new) connection attempt computes its events from an
empty buffer, independent of what an earlier attempt left behind. -/
theorem unterminated_block_not_emitted (b b2 : Nat) (j j2 : ℚ)
    (lines rest lines2 : List (List Char)) (ending : StreamEnd)
    (h : ∀ l ∈ rest, isBlankL l = false) :
    (listenIter b j (.conn 200 (lines ++ rest) .exn)).events =
      (sseRun [] lines).2 ∧
    (listenIter b2 j2 (.conn 200 lines2 ending)).events =
      (sseRun [] lines2).2 := by
  constructor
  · simp only [listenIter]
    rw [if_neg (show ¬ (200 : Nat) ≠ 200 by simp)]
    show (sseRun [] (lines ++ rest)).2 = (sseRun [] lines).2
    rw [sseRun_append, sseRun_no_blank (sseRun [] lines).1 rest h]
    simp
  · simp only [listenIter]
    rw [if_neg (show ¬ (200 : Nat) ≠ 200 by simp)]
    cases ending <;> rfl

theorem unterminated_block_not_emitted_witness :
    (listenIter 10 0 (.conn 200
      ([("data: hi".toList), []] ++ [("data: par".toList)]) .exn)).events =
      (sseRun [] [("data: hi".toList), []]).2 ∧
    (listenIter 5 0 (.conn 200 [("data: x".toList)] .clean)).events =
      (sseRun [] [("data: x".toList)]).2 :=
  unterminated_block_not_emitted 10 5 0 0 [("data: hi".toList), []]
    [("data: par".toList)] [("data: x".toList)] StreamEnd.clean (by decide)

/-! ### Snapshot fetcher claims -/

/-- C4: a failed refresh — the request raised, the JSON parse raised, or
the status was not 200 — leaves the observable state of every fetcher
(Reserva Hoy, the `/api/prev` and `/api/next` base, and Ocupado)
bit-identical to its state before the call. -/
theorem failed_fetch_preserves_state (s1 s2 : SensorState) (s3 : OcupadoState)
    (o : FetchOutcome) (h : fetchFails o = true) :
    hoyRefresh s1 o = s1 ∧ reservaBaseRefresh s2 o = s2 ∧
    ocupadoRefresh s3 o = s3 := by
  cases o with
  | exn => exact ⟨rfl, rfl, rfl⟩
  | resp status body =>
    by_cases hs : status ≠ 200
    · refine ⟨?_, ?_, ?_⟩
      · simp only [hoyRefresh]
        rw [if_pos hs]
      · simp only [reservaBaseRefresh]
        rw [if_pos hs]
      · simp only [ocupadoRefresh]
        rw [if_pos hs]
    · push_neg at hs
      subst hs
      have hb : body = none := by
        simp only [fetchFails] at h
        rw [show (decide ((200 : Nat) ≠ 200)) = false from by decide,
          Bool.false_or] at h
        exact Option.isNone_iff_eq_none.mp h
      subst hb
      exact ⟨rfl, rfl, rfl⟩

theorem failed_fetch_preserves_state_witness :
    hoyRefresh sensorStart (.resp 500 none) = sensorStart ∧
    reservaBaseRefresh sensorStart (.resp 500 none) = sensorStart ∧
    ocupadoRefresh ocupadoStart (.resp 500 none) = ocupadoStart :=
  failed_fetch_preserves_state sensorStart sensorStart ocupadoStart
    (.resp 500 none) (by decide)

/-- A 200 payload with `has_reservation = false` and `user_name` present
but null. -/
def nullNamePayload : Payload :=
  { has_reservation := some (.bool false), user_name := some .null,
    date := none, is_birthday := none, is_holiday := none,
    profile_pic_url := none }

/-- C5, as literally stated, fails on the code for the Reserva Hoy fetcher:
its refresh publishes only the `cumpleanos`, `festivo` and
`foto_perfil_url` attributes (sensor.py lines 188-192), so on a 200
response with `has_reservation = false` and `user_name = null` there is no
user-name attribute at all (neither `nombre` nor `user_name`), although the
state is the free marker `Libre`. -/
theorem hoy_no_user_name_attr_cex :
    (hoyRefresh sensorStart (.resp 200 (some nullNamePayload))).native =
      .str "Libre" ∧
    ((hoyRefresh sensorStart (.resp 200 (some nullNamePayload))).attrs.lookup
      "nombre") = none ∧
    ((hoyRefresh sensorStart (.resp 200 (some nullNamePayload))).attrs.lookup
      "user_name") = none := by
  decide

/-- C5 (amended): on a 200 response with `has_reservation = false`, every
fetcher publishes its none/free marker (off for Ocupado, `Libre` for
Reserva Hoy, `Ninguna` for the `/api/prev`-`/api/next` base), and the
`nombre` attribute of Ocupado and of the base fetchers equals the raw
`user_name` field even when it is null; Reserva Hoy publishes no user-name
attribute — its attribute keys are exactly `cumpleanos`, `festivo`,
`foto_perfil_url`. -/
theorem no_reservation_markers (s1 s2 : SensorState) (s3 : OcupadoState)
    (data : Payload) (h : data.has_reservation = some (PyVal.bool false)) :
    (reservaBaseRefresh s2 (.resp 200 (some data))).native = .str "Ninguna" ∧
    (reservaBaseRefresh s2 (.resp 200 (some data))).attrs.lookup "nombre" =
      some (dget data.user_name) ∧
    (ocupadoRefresh s3 (.resp 200 (some data))).isOn = false ∧
    (ocupadoRefresh s3 (.resp 200 (some data))).attrs.lookup "nombre" =
      some (dget data.user_name) ∧
    (hoyRefresh s1 (.resp 200 (some data))).native = .str "Libre" ∧
    (hoyRefresh s1 (.resp 200 (some data))).attrs.map Prod.fst =
      ["cumpleanos", "festivo", "foto_perfil_url"] := by
  have ht : truthy (dget data.has_reservation) = false := by
    rw [h]; rfl
  have ht2 : truthy (dgetD data.has_reservation (.bool false)) = false := by
    rw [h]; rfl
  refine ⟨?_, ?_, ?_, ?_, ?_, ?_⟩
  · simp only [reservaBaseRefresh]
    rw [if_neg (show ¬ (200 : Nat) ≠ 200 by simp)]
    simp [ht]
  · simp only [reservaBaseRefresh]
    rw [if_neg (show ¬ (200 : Nat) ≠ 200 by simp)]
    simp [List.lookup]
  · simp only [ocupadoRefresh]
    rw [if_neg (show ¬ (200 : Nat) ≠ 200 by simp)]
    simp [ht2]
  · simp only [ocupadoRefresh]
    rw [if_neg (show ¬ (200 : Nat) ≠ 200 by simp)]
    simp [List.lookup]
  · simp only [hoyRefresh]
    rw [if_neg (show ¬ (200 : Nat) ≠ 200 by simp)]
    simp [ht]
  · simp only [hoyRefresh]
    rw [if_neg (show ¬ (200 : Nat) ≠ 200 by simp)]
    simp

theorem no_reservation_markers_witness :
    (reservaBaseRefresh sensorStart
      (.resp 200 (some nullNamePayload))).native = .str "Ninguna" ∧
    (reservaBaseRefresh sensorStart
      (.resp 200 (some nullNamePayload))).attrs.lookup "nombre" =
      some (dget nullNamePayload.user_name) ∧
    (ocupadoRefresh ocupadoStart
      (.resp 200 (some nullNamePayload))).isOn = false ∧
    (ocupadoRefresh ocupadoStart
      (.resp 200 (some nullNamePayload))).attrs.lookup "nombre" =
      some (dget nullNamePayload.user_name) ∧
    (hoyRefresh sensorStart
      (.resp 200 (some nullNamePayload))).native = .str "Libre" ∧
    (hoyRefresh sensorStart
      (.resp 200 (some nullNamePayload))).attrs.map Prod.fst =
      ["cumpleanos", "festivo", "foto_perfil_url"] :=
  no_reservation_markers sensorStart sensorStart ocupadoStart
    nullNamePayload rfl

/-- C10: for the `/api/prev` and `/api/next` fetchers, a 200 response with
`has_reservation` truthy but `user_name` and `date` both absent or null
publishes the unknown marker `Desconocido` — not the none marker `Ninguna`
and not null. -/
theorem reservation_without_name_unknown (st : SensorState) (data : Payload)
    (h1 : truthy (dget data.has_reservation) = true)
    (h2 : data.user_name = none ∨ data.user_name = some PyVal.null)
    (h3 : data.date = none ∨ data.date = some PyVal.null) :
    (reservaBaseRefresh st (.resp 200 (some data))).native =
      .str "Desconocido" ∧
    (reservaBaseRefresh st (.resp 200 (some data))).native ≠
      .str "Ninguna" ∧
    (reservaBaseRefresh st (.resp 200 (some data))).native ≠ .null := by
  have hu : dget data.user_name = .null := by
    rcases h2 with h | h <;> simp [dget, h]
  have hd : dget data.date = .null := by
    rcases h3 with h | h <;> simp [dget, h]
  have hmain : (reservaBaseRefresh st (.resp 200 (some data))).native =
      .str "Desconocido" := by
    simp only [reservaBaseRefresh]
    rw [if_neg (show ¬ (200 : Nat) ≠ 200 by simp), h1, hu, hd]
    rfl
  refine ⟨hmain, ?_, ?_⟩
  · rw [hmain]
    decide
  · rw [hmain]
    decide

theorem reservation_without_name_unknown_witness :
    (reservaBaseRefresh sensorStart (.resp 200 (some
      { has_reservation := some (.bool true), user_name := some .null,
        date := none, is_birthday := none, is_holiday := none,
        profile_pic_url := none }))).native = .str "Desconocido" ∧
    (reservaBaseRefresh sensorStart (.resp 200 (some
      { has_reservation := some (.bool true), user_name := some .null,
        date := none, is_birthday := none, is_holiday := none,
        profile_pic_url := none }))).native ≠ .str "Ninguna" ∧
    (reservaBaseRefresh sensorStart (.resp 200 (some
      { has_reservation := some (.bool true), user_name := some .null,
        date := none, is_birthday := none, is_holiday := none,
        profile_pic_url := none }))).native ≠ .null :=
  reservation_without_name_unknown sensorStart
    { has_reservation := some (.bool true), user_name := some .null,
      date := none, is_birthday := none, is_holiday := none,
      profile_pic_url := none }
    (by decide) (Or.inr rfl) (Or.inl rfl)

end ElRinconDeLola
